import Mathlib

/-!
Shallow embedding of the cog repository's Predictor (pkg/predict/predictor.go)
and Registry server routing (pkg/server/server.go), together with theorems
settling the specification claims about them.

External collaborators (the Docker runtime, the network, the JSON decoder for
typed prediction responses, the input serializer) are passed in as explicit
oracle values/functions, so that every code path of the embedded functions is
the path the Go source takes for the corresponding collaborator outcome.
-/

namespace Cog

/-- Collaborator calls observable from the registry handlers
(ImageBuilder, Storage, Database, ServingPlatform, WebHook). -/
inductive Collab where
  | imageBuilder
  | storage
  | database
  | servingPlatform
  | webHook
deriving DecidableEq, Repr

/-- Side effects performed by the Predictor, recorded as an explicit trace. -/
inductive Effect where
  | nextFreePort
  | runDaemon
  | logFollow (cid : String)
  | warn (msg : String)
  | httpPost (port : Nat) (body : String)
  | dockerStop (cid : String)
deriving DecidableEq, Repr

/-- docker.RunOptions, restricted to the fields predictor.go touches:
the environment list (NewPredictor appends COG_DEBUG=1 when debugging)
and the port mappings (Start appends HostPort/ContainerPort pairs). -/
structure RunOptions where
  env : List String
  ports : List (Nat × Nat)
deriving DecidableEq, Repr

/-- The Predictor struct of predictor.go: runOptions plus the running state
fields containerID and port (Go zero values "" and 0 at creation). -/
structure Predictor where
  runOptions : RunOptions
  containerID : String
  port : Nat
deriving DecidableEq, Repr

/-- NewPredictor from predictor.go; `debug` stands for global.Debug. -/
def NewPredictor (debug : Bool) (ro : RunOptions) : Predictor :=
  { runOptions := if debug then { ro with env := ro.env ++ ["COG_DEBUG=1"] } else ro
    containerID := ""
    port := 0 }

/-- Result of docker.ContainerInspect: cont.State may be nil (hasState false)
and carries a status string. -/
structure ContainerState where
  hasState : Bool
  status : String
deriving DecidableEq, Repr

/-- Outcome of one docker.ContainerInspect call in the readiness loop. -/
inductive InspectResult where
  | err (msg : String)
  | ok (st : ContainerState)
deriving DecidableEq, Repr

/-- Outcome of one readiness probe (http.Get of the container root path):
either the connection fails or a status code comes back. -/
inductive ProbeResult where
  | connErr
  | status (code : Nat)
deriving DecidableEq, Repr

/-- The observations one iteration of waitForContainerReady would make:
the inspect result and the probe result. -/
structure Iteration where
  inspect : InspectResult
  probe : ProbeResult
deriving DecidableEq, Repr

/-- How one run of the readiness loop ends, mirroring the four return
statements of waitForContainerReady. -/
inductive WaitResult where
  | timedOut
  | inspectFailed (msg : String)
  | containerExited
  | ready
deriving DecidableEq, Repr

/-- One iteration of the loop body of waitForContainerReady, given the elapsed
wall-clock time at the top of the iteration (where the deadline is checked,
before the sleep) and the iteration's observations. `none` means the loop
continues. The order mirrors the source: deadline check first, then container
inspection (inspect error or an exited/dead state terminate), then the probe
(connection failure or non-200 continue; 200 succeeds). -/
def waitStep (timeout elapsed : Nat) (it : Iteration) : Option WaitResult :=
  if timeout < elapsed then some WaitResult.timedOut
  else
    match it.inspect with
    | InspectResult.err m => some (WaitResult.inspectFailed m)
    | InspectResult.ok st =>
      if st.hasState && (st.status == "exited" || st.status == "dead") then
        some WaitResult.containerExited
      else
        match it.probe with
        | ProbeResult.connErr => none
        | ProbeResult.status c => if c == 200 then some WaitResult.ready else none

/-- The readiness loop of waitForContainerReady, run from iteration index `i`
with `fuel` remaining iterations. `ea k` is the elapsed time at the top of
iteration `k` (the 100ms sleep of each iteration separates consecutive
values); `ob k` is the observation the loop would make at iteration `k`.
Returns the loop result together with the index of the terminating
iteration; `none` means the model's fuel ran out before the loop returned. -/
def waitLoop (t : Nat) (ea : Nat → Nat) (ob : Nat → Iteration) :
    Nat → Nat → Option (WaitResult × Nat)
  | _, 0 => none
  | i, fuel + 1 =>
    match waitStep t (ea i) (ob i) with
    | some r => some (r, i)
    | none => waitLoop t ea ob (i + 1) fuel

/-- The error/success values waitForContainerReady returns for each loop
outcome, with the error strings of the source. -/
def waitResultToExcept : WaitResult → Except String Unit
  | WaitResult.timedOut => Except.error "Timed out"
  | WaitResult.inspectFailed m => Except.error ("Failed to get container status: " ++ m)
  | WaitResult.containerExited => Except.error "Container exited unexpectedly"
  | WaitResult.ready => Except.ok ()

/-- The environment a run of Start interacts with: the value/error pair
returned by shell.NextFreePort (Go's multiple assignment stores the value
even when the error is non-nil), the docker.RunDaemon outcome, the outcome
of the background docker.ContainerLogsFollow call, global.StartupTimeout,
and the timing/observation functions for the readiness loop. -/
structure StartEnv where
  nextFreePort : Nat × Option String
  runDaemon : Except String String
  logStream : Except String Unit
  timeout : Nat
  elapsedAt : Nat → Nat
  obs : Nat → Iteration

/-- Predictor.Start: assigns the allocated port (before checking the
allocation error, as the Go multiple assignment does), appends the port
mapping, launches the daemon container (assigning containerID on success),
spawns the log-follow task whose failure is only warned about, and runs the
readiness loop. Returns the call result (`none` when the model's loop fuel
is exhausted), the predictor's final state, and the effect trace. -/
def start (p : Predictor) (env : StartEnv) (fuel : Nat) :
    Option (Except String Unit) × Predictor × List Effect :=
  let p1 : Predictor := { p with port := env.nextFreePort.1 }
  match env.nextFreePort.2 with
  | some e => (some (Except.error e), p1, [Effect.nextFreePort])
  | none =>
    let p2 : Predictor :=
      { p1 with runOptions :=
        { p1.runOptions with ports := p1.runOptions.ports ++ [(p1.port, 5000)] } }
    match env.runDaemon with
    | Except.error e =>
      (some (Except.error ("Failed to start container: " ++ e)), p2,
        [Effect.nextFreePort, Effect.runDaemon])
    | Except.ok cid =>
      let p3 : Predictor := { p2 with containerID := cid }
      let logEffects : List Effect :=
        match env.logStream with
        | Except.error e =>
          [Effect.logFollow cid, Effect.warn ("Error getting container logs: " ++ e)]
        | Except.ok _ => [Effect.logFollow cid]
      ((waitLoop env.timeout env.elapsedAt env.obs 0 fuel).map
          (fun rk => waitResultToExcept rk.1),
        p3, [Effect.nextFreePort, Effect.runDaemon] ++ logEffects)

/-- Predictor.Stop: a single unconditional docker.Stop call on the stored
containerID, whose result is returned as-is. -/
def stop (p : Predictor) (dockerStop : String → Except String Unit) :
    Except String Unit × List Effect :=
  (dockerStop p.containerID, [Effect.dockerStop p.containerID])

/-- Whitespace characters skipped by the JSON scanner. -/
def isWsChar (c : Char) : Bool :=
  c = ' ' || c = '\t' || c = '\n' || c = '\r'

/-- Skip leading JSON whitespace. -/
def skipWs : List Char → List Char
  | [] => []
  | c :: cs => if isWsChar c then skipWs cs else c :: cs

/-- Scan the characters of a JSON string after its opening quote, up to the
closing quote; escape sequences are not modelled (the bodies the claims are
about contain none), so a backslash fails the parse. -/
def parseStringChars : List Char → Option (List Char × List Char)
  | [] => none
  | c :: cs =>
    if c = '"' then some ([], cs)
    else if c = '\\' then none
    else
      match parseStringChars cs with
      | some (s, r) => some (c :: s, r)
      | none => none

/-- Parse the members of a JSON object with string values, positioned just
after the opening brace (or after a comma). The fuel bounds the number of
commas consumed. -/
def parseMembers (fuel : Nat) (cs : List Char) :
    Option (List (String × String) × List Char) :=
  match skipWs cs with
  | '"' :: rest =>
    match parseStringChars rest with
    | none => none
    | some (key, r1) =>
      match skipWs r1 with
      | ':' :: r2 =>
        match skipWs r2 with
        | '"' :: r3 =>
          match parseStringChars r3 with
          | none => none
          | some (val, r4) =>
            match skipWs r4 with
            | ',' :: r5 =>
              match fuel with
              | 0 => none
              | f + 1 =>
                match parseMembers f r5 with
                | some (ms, rem) => some ((String.mk key, String.mk val) :: ms, rem)
                | none => none
            | '}' :: r5 => some ([(String.mk key, String.mk val)], r5)
            | _ => none
        | _ => none
      | _ => none
  | _ => none

/-- Model of Go's encoding/json Decode into `struct { Message string }` as
used by Predict on a 400 response: an empty body fails with EOF, a JSON
object yields its "message" member (last occurrence wins, absent means the
zero value ""), anything else is a decode error. Only flat objects with
string values are modelled, which covers the bodies of the container's
bad-request contract. -/
def decodeMessageBody (s : String) : Except String String :=
  match skipWs s.data with
  | [] => Except.error "EOF"
  | '{' :: rest =>
    match skipWs rest with
    | '}' :: _ => Except.ok ""
    | _ =>
      match parseMembers rest.length rest with
      | some (fields, _) => Except.ok ((fields.reverse.lookup "message").getD "")
      | none => Except.error "invalid JSON"
  | _ => Except.error "invalid JSON"

/-- Serialize one string member of a JSON object (no escaping; the inputs
used are escape-free, as in the Go maps at issue). -/
def encodePair (k v : String) : String :=
  "\"" ++ k ++ "\":\"" ++ v ++ "\""

/-- Insert a pair into a key-sorted list (Go's json.Marshal emits map keys
in sorted order). -/
def insertByKey (p : String × String) : List (String × String) → List (String × String)
  | [] => [p]
  | q :: qs => if p.1 < q.1 then p :: q :: qs else q :: insertByKey p qs

/-- Sort an association list by key. -/
def sortByKey : List (String × String) → List (String × String)
  | [] => []
  | p :: ps => insertByKey p (sortByKey ps)

/-- Comma-join the serialized members. -/
def encodeFields : List (String × String) → String
  | [] => ""
  | [p] => encodePair p.1 p.2
  | p :: ps => encodePair p.1 p.2 ++ "," ++ encodeFields ps

/-- json.Marshal of the Request struct `{"input": {...}}` built by Predict. -/
def encodeRequest (m : List (String × String)) : String :=
  "\x7b\"input\":\x7b" ++ encodeFields (sortByKey m) ++ "\x7d\x7d"

/-- The Response struct decoded from a 200 prediction response
(Status/Output/Error; Output is opaque interface data). -/
structure PredResponse where
  Status : String
  Output : Option String
  Error : String
deriving DecidableEq, Repr

/-- The outcome of the single HTTP POST issued by Predict. -/
inductive HttpOutcome where
  | connErr (msg : String)
  | response (status : Nat) (body : String)
deriving DecidableEq, Repr

/-- The /predictions URL for a host port, as formatted by Predict. -/
def predictURL (port : Nat) : String :=
  "http://localhost:" ++ toString port ++ "/predictions"

/-- The 400-branch of Predict: decode the `message` field of the body; a
decode failure, an empty message and a present message each produce the
distinct error strings of the source. -/
def classify400 (body : String) : Except String PredResponse :=
  match decodeMessageBody body with
  | Except.error e =>
    Except.error ("/predict call return status 400, and the response body failed to decode: " ++ e)
  | Except.ok msg =>
    if msg = "" then Except.error "Bad request"
    else Except.error ("Bad request: " ++ msg)

/-- Predictor.Predict: serialize the inputs (the Inputs.toMap outcome is an
oracle, its source being outside src/), marshal the request, POST it to the
stored port, and classify the response: connection failure is surfaced,
status 400 goes through `classify400`, any other non-200 status is a generic
protocol error, and a 200 body is decoded by the `decodeResp` oracle
(json.Decode into Response). The second component records the HTTP requests
issued. No lifecycle check appears anywhere on this path, mirroring the
source. -/
def predict (p : Predictor) (toMapResult : Except String (List (String × String)))
    (decodeResp : String → Except String PredResponse)
    (net : Nat → String → HttpOutcome) :
    Except String PredResponse × List Effect :=
  match toMapResult with
  | Except.error e => (Except.error e, [])
  | Except.ok m =>
    let body := encodeRequest m
    match net p.port body with
    | HttpOutcome.connErr e =>
      (Except.error ("Failed to POST HTTP request to " ++ predictURL p.port ++ ": " ++ e),
        [Effect.httpPost p.port body])
    | HttpOutcome.response st rbody =>
      (if st = 400 then classify400 rbody
        else if st ≠ 200 then
          Except.error ("/predictions call returned status " ++ toString st)
        else decodeResp rbody,
        [Effect.httpPost p.port body])

/-- The permission a route's access check requires (read for GET,
write for mutating verbs). -/
inductive AccessLevel where
  | read
  | write
deriving DecidableEq, Repr

/-- The outcome of the AccessControl decision for a request: allowed,
denied, or the authority being unreachable. -/
inductive AccessDecision where
  | allowed
  | denied
  | unreachable
deriving DecidableEq, Repr

/-- What a request handler produces: an HTTP status and the list of
collaborator calls it performed. -/
structure HandlerOutcome where
  httpStatus : Nat
  calls : List Collab
deriving DecidableEq, Repr

/-- A route of Server.Start: its method, path pattern, and the access check
it is wrapped in (none for the unwrapped liveness/auth routes). -/
structure Route where
  method : String
  path : String
  check : Option AccessLevel
deriving DecidableEq, Repr

/-- The route table registered by Server.Start in server.go, in registration
order: each named-repository endpoint is wrapped in checkReadAccess (GET) or
checkWriteAccess (PUT/DELETE); the liveness and auth endpoints are not. -/
def serverRoutes : List Route :=
  [ { method := "GET", path := "/", check := none }
  , { method := "GET", path := "/ping", check := none }
  , { method := "GET", path := "/v1/repos/{user}/{name}/models/{id}.zip", check := some AccessLevel.read }
  , { method := "PUT", path := "/v1/repos/{user}/{name}/models/", check := some AccessLevel.write }
  , { method := "GET", path := "/v1/repos/{user}/{name}/models/", check := some AccessLevel.read }
  , { method := "GET", path := "/v1/repos/{user}/{name}/models/{id}", check := some AccessLevel.read }
  , { method := "DELETE", path := "/v1/repos/{user}/{name}/models/{id}", check := some AccessLevel.write }
  , { method := "GET", path := "/v1/repos/{user}/{name}/cache-hashes/", check := some AccessLevel.read }
  , { method := "GET", path := "/v1/auth/display-token-url", check := none }
  , { method := "POST", path := "/v1/auth/verify-token", check := none }
  , { method := "GET", path := "/v1/repos/{user}/{name}/check-read", check := some AccessLevel.read } ]

/-- Modelled from the spec: the checkReadAccess/checkWriteAccess wrappers,
whose bodies are not under src/ (server.go only applies them to the route
handlers). Per §4.2/§4.4, a negative decision — denied, or the authority
being unreachable, which must be treated as denied — short-circuits with an
authorization failure (403) before the wrapped handler runs, so no
collaborator is touched. -/
def checkAccess (d : AccessDecision) (handler : Unit → HandlerOutcome) : HandlerOutcome :=
  match d with
  | AccessDecision.allowed => handler ()
  | AccessDecision.denied => { httpStatus := 403, calls := [] }
  | AccessDecision.unreachable => { httpStatus := 403, calls := [] }

/-- Dispatch a registered route: unwrapped routes run their handler
directly, wrapped routes go through the access check. -/
def dispatch (r : Route) (d : AccessDecision) (handler : Unit → HandlerOutcome) :
    HandlerOutcome :=
  match r.check with
  | none => handler ()
  | some _ => checkAccess d handler

/-- The Model database record of §3: created on successful upload. -/
structure Model where
  ID : String
  Name : String
  Created : Nat
  ContentHash : Nat
  StoragePath : String
  ImageReference : String
deriving DecidableEq, Repr

/-- How a delete request ends: success, the record being absent, or the
distinct partial-delete failure of §7. -/
inductive DeleteOutcome where
  | Success
  | NotFound
  | PartialDeleteError (msg : String)
deriving DecidableEq, Repr

/-- Modelled from the spec: the DeleteModel handler, whose body is not under
src/ (server.go only routes to it). Per §4.2, Delete requests removal of the
stored bundle from Storage first; if that fails, the database deletion is
not performed, the record stays, and PartialDeleteError is returned. The
result carries the outcome, the database record after the call, and the
collaborator calls in order. -/
def deleteModel (record : Option Model) (storageDelete : Except String Unit)
    (dbDelete : Except String Unit) :
    DeleteOutcome × Option Model × List Collab :=
  match record with
  | none => (DeleteOutcome.NotFound, none, [])
  | some m =>
    match storageDelete with
    | Except.error e => (DeleteOutcome.PartialDeleteError e, some m, [Collab.storage])
    | Except.ok _ =>
      match dbDelete with
      | Except.error e =>
        (DeleteOutcome.PartialDeleteError e, some m, [Collab.storage, Collab.database])
      | Except.ok _ => (DeleteOutcome.Success, none, [Collab.storage, Collab.database])

/-- Modelled from the spec: the ContentHash computed by the upload handler,
whose body is not under src/. Per §3 it is a digest of the uploaded bundle's
bytes and of nothing else; an FNV-style fold over the bytes stands in for
the cryptographic digest (only its functional determinism matters to the
claims). -/
def contentHash (bundle : List Nat) : Nat :=
  bundle.foldl (fun h b => (h * 16777619 + b) % (2 ^ 64)) 2166136261

/-- Modelled from the spec: the deterministic image tag derived from the
project/name and the content hash (§4.2: hash as tag suffix). -/
def imageTag (user name : String) (h : Nat) : String :=
  user ++ "/" ++ name ++ ":" ++ toString h

/-- The content-addressed keys an upload derives from its inputs: the
content hash of the bundle and the image tag for the repository. -/
def uploadKeys (user name : String) (bundle : List Nat) : Nat × String :=
  (contentHash bundle, imageTag user name (contentHash bundle))

/-- Whether a path is a named-repository endpoint: it starts with the
/v1/repos/ segment (compared on the underlying character list). -/
def isRepoPath (s : String) : Bool :=
  s.data.take 10 == "/v1/repos/".data

/-- An inspect outcome that lets the loop continue: the call succeeded and
the container is neither exited nor dead. -/
def inspectOk (it : Iteration) : Bool :=
  match it.inspect with
  | InspectResult.err _ => false
  | InspectResult.ok st => !(st.hasState && (st.status == "exited" || st.status == "dead"))

/-- An inspect outcome showing a crashed container: State non-nil with
status exited or dead. -/
def exitedOrDead (it : Iteration) : Bool :=
  match it.inspect with
  | InspectResult.err _ => false
  | InspectResult.ok st => st.hasState && (st.status == "exited" || st.status == "dead")

/-- A probe outcome that is not a 200 response. -/
def probeNotOk : ProbeResult → Bool
  | ProbeResult.connErr => true
  | ProbeResult.status c => c != 200

theorem waitStep_continue (t e : Nat) (it : Iteration)
    (h1 : inspectOk it = true) (h2 : probeNotOk it.probe = true) :
    waitStep t e it = if t < e then some WaitResult.timedOut else none := by
  obtain ⟨ins, pr⟩ := it
  by_cases hte : t < e
  · simp [waitStep, hte]
  · cases ins with
    | err m => simp [inspectOk] at h1
    | ok st =>
      have hc : (st.hasState && (st.status == "exited" || st.status == "dead")) = false := by
        simp only [inspectOk, Bool.not_eq_true'] at h1
        exact h1
      cases pr with
      | connErr => simp [waitStep, hte, hc]
      | status c =>
        have h200 : (c == 200) = false := by
          simp only [probeNotOk, bne, Bool.not_eq_true'] at h2
          exact h2
        simp [waitStep, hte, hc, h200]

theorem waitStep_exited (t e : Nat) (it : Iteration)
    (h1 : e ≤ t) (h2 : exitedOrDead it = true) :
    waitStep t e it = some WaitResult.containerExited := by
  obtain ⟨ins, pr⟩ := it
  cases ins with
  | err m => simp [exitedOrDead] at h2
  | ok st =>
    have hc : (st.hasState && (st.status == "exited" || st.status == "dead")) = true := by
      simp only [exitedOrDead] at h2
      exact h2
    have hte : ¬ t < e := by omega
    simp [waitStep, hte, hc]

theorem waitStep_ready_probe (t e : Nat) (it : Iteration)
    (h : waitStep t e it = some WaitResult.ready) : it.probe = ProbeResult.status 200 := by
  obtain ⟨ins, pr⟩ := it
  by_cases hte : t < e
  · simp [waitStep, hte] at h
  · cases ins with
    | err m => simp [waitStep, hte] at h
    | ok st =>
      by_cases hc : (st.hasState && (st.status == "exited" || st.status == "dead")) = true
      · simp [waitStep, hte, hc] at h
      · rw [Bool.not_eq_true] at hc
        cases pr with
        | connErr => simp [waitStep, hte, hc] at h
        | status c =>
          by_cases h200 : (c == 200) = true
          · have : c = 200 := by simpa using h200
            rw [this]
          · rw [Bool.not_eq_true] at h200
            simp [waitStep, hte, hc, h200] at h

theorem waitLoop_none (t : Nat) (ea : Nat → Nat) (ob : Nat → Iteration) :
    ∀ fuel i, waitLoop t ea ob i fuel = none →
      ∀ j, j < fuel → waitStep t (ea (i + j)) (ob (i + j)) = none := by
  intro fuel
  induction fuel with
  | zero => intro i h j hj; omega
  | succ f ih =>
    intro i h j hj
    rw [waitLoop] at h
    cases hstep : waitStep t (ea i) (ob i) with
    | some r => rw [hstep] at h; simp at h
    | none =>
      rw [hstep] at h
      cases j with
      | zero => simpa using hstep
      | succ j0 =>
        have := ih (i + 1) h j0 (by omega)
        have harith : i + 1 + j0 = i + (j0 + 1) := by omega
        rwa [harith] at this

theorem waitLoop_some (t : Nat) (ea : Nat → Nat) (ob : Nat → Iteration) :
    ∀ fuel i r k, waitLoop t ea ob i fuel = some (r, k) →
      i ≤ k ∧ k < i + fuel ∧ waitStep t (ea k) (ob k) = some r ∧
        ∀ j, i ≤ j → j < k → waitStep t (ea j) (ob j) = none := by
  intro fuel
  induction fuel with
  | zero => intro i r k h; rw [waitLoop] at h; simp at h
  | succ f ih =>
    intro i r k h
    rw [waitLoop] at h
    cases hstep : waitStep t (ea i) (ob i) with
    | some r0 =>
      rw [hstep] at h
      injection h with h1
      injection h1 with hr0 hik
      subst hr0; subst hik
      exact ⟨le_rfl, by omega, hstep, fun j hj1 hj2 => by omega⟩
    | none =>
      rw [hstep] at h
      obtain ⟨h1, h2, h3, h4⟩ := ih (i + 1) r k h
      refine ⟨by omega, by omega, h3, fun j hj1 hj2 => ?_⟩
      rcases Nat.eq_or_lt_of_le hj1 with heq | hlt
      · subst heq; exact hstep
      · exact h4 j (by omega) hj2

theorem waitLoop_first (t : Nat) (ea : Nat → Nat) (ob : Nat → Iteration)
    (k : Nat) (r : WaitResult) (hk : waitStep t (ea k) (ob k) = some r) :
    ∀ fuel i, i ≤ k → k < i + fuel →
      (∀ j, i ≤ j → j < k → waitStep t (ea j) (ob j) = none) →
      waitLoop t ea ob i fuel = some (r, k) := by
  intro fuel
  induction fuel with
  | zero => intro i h1 h2 h3; omega
  | succ f ih =>
    intro i h1 h2 h3
    by_cases hik : i = k
    · subst hik
      rw [waitLoop, hk]
    · have hstep : waitStep t (ea i) (ob i) = none := h3 i le_rfl (by omega)
      rw [waitLoop, hstep]
      exact ih (i + 1) (by omega) (by omega) (fun j hj1 hj2 => h3 j (by omega) hj2)

theorem elapsed_lower_bound (ea : Nat → Nat) (hp : ∀ k, ea k + 100 ≤ ea (k + 1)) :
    ∀ k, 100 * k ≤ ea k := by
  intro k
  induction k with
  | zero => exact Nat.zero_le _
  | succ n ih =>
    have := hp n
    omega

/-- C6 counterexample: a run of Start whose container is exited at the very
iteration from which the loop returns (and exited in every later
observation), before any probe ever succeeded; yet because the deadline
check at the top of the iteration precedes the container inspection, Start
returns the timeout error, not the container-crashed error. -/
theorem c6_counterexample :
    ((fun k => if k = 0 then
        Iteration.mk (InspectResult.ok (ContainerState.mk true "running")) ProbeResult.connErr
      else
        Iteration.mk (InspectResult.ok (ContainerState.mk true "exited")) ProbeResult.connErr) 1)
      = Iteration.mk (InspectResult.ok (ContainerState.mk true "exited")) ProbeResult.connErr
  ∧ (start (NewPredictor false (RunOptions.mk [] []))
      (StartEnv.mk (6000, none) (Except.ok "cid") (Except.ok ()) 300
        (fun k => if k = 0 then 0 else 301)
        (fun k => if k = 0 then
          Iteration.mk (InspectResult.ok (ContainerState.mk true "running")) ProbeResult.connErr
        else
          Iteration.mk (InspectResult.ok (ContainerState.mk true "exited")) ProbeResult.connErr))
      5).1
      = some (Except.error "Timed out") := by
  constructor
  · rfl
  · rfl

/-- C6 (amended): when the inspected state at an iteration whose deadline
check still passes (elapsed ≤ timeout at the top of the iteration) is exited
or dead, and every earlier iteration continued, the readiness loop of Start
returns the container-crashed result at exactly that iteration, with no
further retries; detection is by state inspection, not only by probe
failure. (If the deadline check at the observing iteration has already
tripped, the loop returns the timeout error instead — see the
counterexample — and the crash return itself happens only after that
iteration's sleep, so it can land shortly after the deadline instant.) -/
theorem c6_amended_crash_detection (t : Nat) (ea : Nat → Nat) (ob : Nat → Iteration)
    (k fuel : Nat)
    (hprev : ∀ j, j < k → waitStep t (ea j) (ob j) = none)
    (hdl : ea k ≤ t)
    (hexit : exitedOrDead (ob k) = true)
    (hfuel : k < fuel) :
    waitLoop t ea ob 0 fuel = some (WaitResult.containerExited, k) :=
  waitLoop_first t ea ob k WaitResult.containerExited
    (waitStep_exited t (ea k) (ob k) hdl hexit) fuel 0 (Nat.zero_le k) (by omega)
    (fun j hj1 hj2 => hprev j hj2)

/-- Witness for the amended C6: a concrete run where iteration 0 sees a
running container and iteration 1, still within the deadline, sees the
exited container: the loop stops at iteration 1 with the crash result. -/
theorem c6_witness :
    waitLoop 300 (fun k => 100 * k)
      (fun k => if k = 0 then
        Iteration.mk (InspectResult.ok (ContainerState.mk true "running")) ProbeResult.connErr
      else
        Iteration.mk (InspectResult.ok (ContainerState.mk true "exited")) ProbeResult.connErr)
      0 5 = some (WaitResult.containerExited, 1) :=
  c6_amended_crash_detection 300 (fun k => 100 * k) _ 1 5
    (fun j hj => by
      have hj0 : j = 0 := by omega
      subst hj0
      decide)
    (by decide) (by decide) (by decide)

/-- C7: the readiness loop of Start (i) returns the timeout result as soon
as the elapsed time at a deadline check exceeds the startup timeout, (ii)
never treats a connection failure or non-200 probe as success, (iii)
returns success only at an iteration whose probe returned status 200, and
(iv) when the container never serves 200 (every probe fails or is non-200)
while inspections keep showing a live container, the loop terminates with
the timeout result within the deadline's worth of iterations rather than
looping forever. -/
theorem c7_readiness_loop_behavior :
    (∀ t e it, t < e → waitStep t e it = some WaitResult.timedOut)
  ∧ (∀ t e it, probeNotOk it.probe = true → waitStep t e it ≠ some WaitResult.ready)
  ∧ (∀ t ea ob fuel k, waitLoop t ea ob 0 fuel = some (WaitResult.ready, k) →
      (ob k).probe = ProbeResult.status 200)
  ∧ (∀ t ea ob, (∀ k, ea k + 100 ≤ ea (k + 1)) →
      (∀ k, inspectOk (ob k) = true) → (∀ k, probeNotOk ((ob k).probe) = true) →
      ∃ k, waitLoop t ea ob 0 (t / 100 + 2) = some (WaitResult.timedOut, k)) := by
  refine ⟨?_, ?_, ?_, ?_⟩
  · intro t e it h
    simp [waitStep, h]
  · intro t e it h hready
    have hp := waitStep_ready_probe t e it hready
    rw [hp] at h
    simp [probeNotOk] at h
  · intro t ea ob fuel k h
    exact waitStep_ready_probe t (ea k) (ob k) (waitLoop_some t ea ob fuel 0 _ k h).2.2.1
  · intro t ea ob hprog hins hprobe
    have hlow := elapsed_lower_bound ea hprog
    have hbig : t < ea (t / 100 + 1) := by
      have := hlow (t / 100 + 1)
      omega
    cases hres : waitLoop t ea ob 0 (t / 100 + 2) with
    | none =>
      have hnone := waitLoop_none t ea ob (t / 100 + 2) 0 hres (t / 100 + 1) (by omega)
      rw [Nat.zero_add] at hnone
      rw [waitStep_continue t (ea (t / 100 + 1)) (ob (t / 100 + 1))
            (hins _) (hprobe _), if_pos hbig] at hnone
      simp at hnone
    | some rk =>
      obtain ⟨r, k⟩ := rk
      have hstep := (waitLoop_some t ea ob (t / 100 + 2) 0 r k hres).2.2.1
      rw [waitStep_continue t (ea k) (ob k) (hins _) (hprobe _)] at hstep
      by_cases hlt : t < ea k
      · rw [if_pos hlt] at hstep
        injection hstep with h1
        exact ⟨k, by rw [← h1]⟩
      · rw [if_neg hlt] at hstep
        simp at hstep

/-- C3 counterexample: on a freshly created Predictor (Start never called,
port still 0) whose input serializes successfully, Predict issues the HTTP
POST (to port 0) — the effect trace contains the request — and the error it
returns is the POST connection failure, not a lifecycle rejection. This
contradicts the claim that no HTTP request is issued on a non-Running
Predictor. -/
theorem c3_counterexample :
    (predict (NewPredictor false (RunOptions.mk [] [])) (Except.ok [])
        (fun _ => Except.error "unused")
        (fun _ _ => HttpOutcome.connErr "connection refused")).2
      = [Effect.httpPost 0 (encodeRequest [])]
  ∧ (predict (NewPredictor false (RunOptions.mk [] [])) (Except.ok [])
        (fun _ => Except.error "unused")
        (fun _ _ => HttpOutcome.connErr "connection refused")).2 ≠ []
  ∧ (predict (NewPredictor false (RunOptions.mk [] [])) (Except.ok [])
        (fun _ => Except.error "unused")
        (fun _ _ => HttpOutcome.connErr "connection refused")).1
      = Except.error
          "Failed to POST HTTP request to http://localhost:0/predictions: connection refused" := by
  refine ⟨rfl, by decide, rfl⟩

/-- C3 (amended): Predict performs no lifecycle check at all. Whenever input
serialization succeeds it issues exactly one HTTP POST to the stored port —
0 on an instance whose Start never ran or failed before port assignment —
and any error on a non-Running instance comes from serialization or from
that HTTP call itself; only a serialization failure avoids network I/O. -/
theorem c3_predict_always_posts :
    (∀ p m decodeResp net,
      (predict p (Except.ok m) decodeResp net).2
        = [Effect.httpPost p.port (encodeRequest m)])
  ∧ (∀ p e decodeResp net,
      predict p (Except.error e) decodeResp net = (Except.error e, [])) := by
  constructor
  · intro p m dr net
    cases hn : net p.port (encodeRequest m) with
    | connErr e => simp [predict, hn]
    | response st b => simp [predict, hn]
  · intro p e dr net
    rfl

/-- C4 counterexample: a 400 response with an empty body makes the JSON
decode of the message struct fail with EOF, so Predict returns the
decode-failure error, which is not the generic "Bad request" error the
claim promises for an empty body. -/
theorem c4_counterexample :
    (predict (NewPredictor false (RunOptions.mk [] [])) (Except.ok [])
        (fun _ => Except.error "unused")
        (fun _ _ => HttpOutcome.response 400 "")).1
      = Except.error
          "/predict call return status 400, and the response body failed to decode: EOF"
  ∧ ("/predict call return status 400, and the response body failed to decode: EOF" : String)
      ≠ "Bad request" := by
  refine ⟨rfl, by decide⟩

/-- C4 (amended): on a 400 response, if the body decodes (as the message
struct) to a non-empty message, Predict's error is "Bad request: " followed
by that message; if the body decodes to an empty message (e.g. an object
without the field), the error is the generic "Bad request"; if the body is
empty the decode fails with EOF and Predict returns the decode-failure
error instead of the generic bad-request error. -/
theorem c4_amended_bad_request_mapping :
    (∀ p m decodeResp body msg, decodeMessageBody body = Except.ok msg → msg ≠ "" →
      (predict p (Except.ok m) decodeResp (fun _ _ => HttpOutcome.response 400 body)).1
        = Except.error ("Bad request: " ++ msg))
  ∧ (∀ p m decodeResp body, decodeMessageBody body = Except.ok "" →
      (predict p (Except.ok m) decodeResp (fun _ _ => HttpOutcome.response 400 body)).1
        = Except.error "Bad request")
  ∧ (∀ p m decodeResp,
      (predict p (Except.ok m) decodeResp (fun _ _ => HttpOutcome.response 400 "")).1
        = Except.error
            "/predict call return status 400, and the response body failed to decode: EOF") := by
  refine ⟨?_, ?_, ?_⟩
  · intro p m dr body msg hdec hmsg
    simp [predict, classify400, hdec, hmsg]
  · intro p m dr body hdec
    simp [predict, classify400, hdec]
  · intro p m dr
    have hdec : decodeMessageBody "" = Except.error "EOF" := rfl
    simp [predict, classify400, hdec]

/-- Witness for the amended C4: the spec's own example body yields the error
text carrying "bad input". -/
theorem c4_witness :
    (predict (NewPredictor false (RunOptions.mk [] [])) (Except.ok [])
        (fun _ => Except.error "unused")
        (fun _ _ =>
          HttpOutcome.response 400 "\x7b\"message\": \"bad input\"\x7d")).1
      = Except.error "Bad request: bad input" :=
  c4_amended_bad_request_mapping.1 (NewPredictor false (RunOptions.mk [] [])) []
    (fun _ => Except.error "unused") "\x7b\"message\": \"bad input\"\x7d" "bad input"
    rfl (by decide)

/-- C5 counterexample: a run of Start that allocates port 5432 and then
fails at container launch returns an error while the predictor's port field
already holds 5432 (non-empty), contradicting the claim that port is still
empty whenever Start returns an error. -/
theorem c5_counterexample :
    (start (NewPredictor false (RunOptions.mk [] []))
        (StartEnv.mk (5432, none) (Except.error "docker failed") (Except.ok ()) 300
          (fun _ => 0)
          (fun _ => Iteration.mk (InspectResult.ok (ContainerState.mk true "running"))
            ProbeResult.connErr))
        1).1 = some (Except.error "Failed to start container: docker failed")
  ∧ (start (NewPredictor false (RunOptions.mk [] []))
        (StartEnv.mk (5432, none) (Except.error "docker failed") (Except.ok ()) 300
          (fun _ => 0)
          (fun _ => Iteration.mk (InspectResult.ok (ContainerState.mk true "running"))
            ProbeResult.connErr))
        1).2.1.port = 5432
  ∧ ((5432 : Nat) ≠ 0) := by
  refine ⟨rfl, rfl, by decide⟩

/-- C5 (amended): containerID and port are zero-valued at creation; Start
assigns port the value returned by the port allocator before checking its
error (Go's multiple assignment), and assigns containerID only when the
container launch succeeds. Hence when Start fails at port allocation or at
container launch, containerID is still empty — but port already holds the
allocator's returned value, and after a launch the containerID stays set
even if readiness later fails. -/
theorem c5_amended_field_assignment :
    (∀ d ro, (NewPredictor d ro).containerID = "" ∧ (NewPredictor d ro).port = 0)
  ∧ (∀ p env fuel, ((start p env fuel).2.1).port = env.nextFreePort.1)
  ∧ (∀ p env fuel e, env.nextFreePort.2 = some e →
      ((start p env fuel).2.1).containerID = p.containerID)
  ∧ (∀ p env fuel e, env.runDaemon = Except.error e →
      ((start p env fuel).2.1).containerID = p.containerID) := by
  refine ⟨fun d ro => ⟨rfl, rfl⟩, ?_, ?_, ?_⟩
  · intro p env fuel
    rcases env with ⟨⟨np, o⟩, rd, ls, t, ea, ob⟩
    cases o with
    | some e => rfl
    | none =>
      cases rd with
      | error e => rfl
      | ok cid => rfl
  · intro p env fuel e h
    rcases env with ⟨⟨np, o⟩, rd, ls, t, ea, ob⟩
    cases o with
    | some e0 => rfl
    | none => simp at h
  · intro p env fuel e h
    rcases env with ⟨⟨np, o⟩, rd, ls, t, ea, ob⟩
    cases o with
    | some e0 => rfl
    | none =>
      cases rd with
      | error e0 => rfl
      | ok cid => simp at h

/-- Witness for the amended C5: the fields of a fresh Predictor are empty,
and a concrete Start run failing at container launch leaves containerID
empty while port holds the allocated 7000. -/
theorem c5_witness :
    ((NewPredictor false (RunOptions.mk [] [])).containerID = ""
      ∧ (NewPredictor false (RunOptions.mk [] [])).port = 0)
  ∧ ((start (NewPredictor false (RunOptions.mk [] []))
        (StartEnv.mk (7000, none) (Except.error "x") (Except.ok ()) 10
          (fun _ => 0)
          (fun _ => Iteration.mk (InspectResult.ok (ContainerState.mk true "running"))
            ProbeResult.connErr))
        2).2.1).containerID = "" :=
  ⟨c5_amended_field_assignment.1 false (RunOptions.mk [] []),
    c5_amended_field_assignment.2.2.2 (NewPredictor false (RunOptions.mk [] []))
      (StartEnv.mk (7000, none) (Except.error "x") (Except.ok ()) 10
        (fun _ => 0)
        (fun _ => Iteration.mk (InspectResult.ok (ContainerState.mk true "running"))
          ProbeResult.connErr))
      2 "x" rfl⟩

/-- C9: the value Start returns and the predictor state it leaves behind are
identical for any two outcomes of the log-streaming task — a log-stream
failure shows up only as a warning effect in the trace, never in the call
result, so no later call on the Predictor can be affected either. -/
theorem c9_log_stream_noninterference :
    (∀ p nfp rd ls1 ls2 t ea ob fuel,
      (start p (StartEnv.mk nfp rd ls1 t ea ob) fuel).1
        = (start p (StartEnv.mk nfp rd ls2 t ea ob) fuel).1
      ∧ (start p (StartEnv.mk nfp rd ls1 t ea ob) fuel).2.1
        = (start p (StartEnv.mk nfp rd ls2 t ea ob) fuel).2.1)
  ∧ (∀ p np cid e t ea ob fuel,
      Effect.warn ("Error getting container logs: " ++ e)
        ∈ (start p (StartEnv.mk (np, none) (Except.ok cid) (Except.error e) t ea ob)
            fuel).2.2) := by
  constructor
  · intro p nfp rd ls1 ls2 t ea ob fuel
    obtain ⟨np, o⟩ := nfp
    cases o with
    | some e => exact ⟨rfl, rfl⟩
    | none =>
      cases rd with
      | error e => exact ⟨rfl, rfl⟩
      | ok cid => cases ls1 <;> cases ls2 <;> exact ⟨rfl, rfl⟩
  · intro p np cid e t ea ob fuel
    simp [start]

/-- C10: Stop performs no lifecycle check: for every Predictor it issues
exactly one container-termination request with the stored containerID and
returns that call's result — on a freshly created instance, and on one
whose Start failed before a container was created, the containerID passed
is the empty string. -/
theorem c10_stop_unconditional :
    (∀ p f, stop p f = (f p.containerID, [Effect.dockerStop p.containerID]))
  ∧ (∀ d ro f, stop (NewPredictor d ro) f = (f "", [Effect.dockerStop ""]))
  ∧ (∀ p np e ls t ea ob fuel f,
      stop ((start p (StartEnv.mk (np, none) (Except.error e) ls t ea ob) fuel).2.1) f
        = (f p.containerID, [Effect.dockerStop p.containerID])) :=
  ⟨fun _ _ => rfl, fun _ _ _ => rfl, fun _ _ _ _ _ _ _ _ _ => rfl⟩

/-- Witness for C7: the timeout branch at a concrete late iteration, and a
concrete never-200 run (status 503 forever) that terminates with the
timeout result. -/
theorem c7_witness :
    waitStep 300 301
      (Iteration.mk (InspectResult.ok (ContainerState.mk true "running")) ProbeResult.connErr)
      = some WaitResult.timedOut
  ∧ ∃ k, waitLoop 100 (fun k => 100 * k)
      (fun _ => Iteration.mk (InspectResult.ok (ContainerState.mk true "running"))
        (ProbeResult.status 503))
      0 (100 / 100 + 2) = some (WaitResult.timedOut, k) :=
  ⟨c7_readiness_loop_behavior.1 300 301 _ (by decide),
    c7_readiness_loop_behavior.2.2.2 100 (fun k => 100 * k) _
      (fun k => by show 100 * k + 100 ≤ 100 * (k + 1); omega)
      (fun k => rfl) (fun k => rfl)⟩

/-- C1: every named-repository route registered by Server.Start is wrapped
in an access check, and under any negative decision (denied, or authority
unreachable — treated as denied) the dispatch returns the 403 authorization
failure with an empty collaborator-call list: no ImageBuilder, Storage or
Database call happens, whatever the wrapped handler would have done. -/
theorem c1_denied_requests_touch_no_collaborators :
    ∀ r ∈ serverRoutes, isRepoPath r.path = true →
      r.check.isSome = true ∧
      ∀ d handler, d ≠ AccessDecision.allowed →
        dispatch r d handler = HandlerOutcome.mk 403 [] := by
  intro r hr hp
  fin_cases hr <;>
    first
      | exact absurd hp (by decide)
      | (refine ⟨rfl, fun d handler hd => ?_⟩
         cases d with
         | allowed => exact absurd rfl hd
         | denied => rfl
         | unreachable => rfl)

/-- Witness for C1: the DELETE model route under a denied decision returns
403 and performs none of the collaborator calls its handler would make. -/
theorem c1_witness :
    dispatch (Route.mk "DELETE" "/v1/repos/{user}/{name}/models/{id}" (some AccessLevel.write))
      AccessDecision.denied
      (fun _ => HandlerOutcome.mk 200 [Collab.imageBuilder, Collab.storage, Collab.database])
      = HandlerOutcome.mk 403 [] :=
  (c1_denied_requests_touch_no_collaborators
    (Route.mk "DELETE" "/v1/repos/{user}/{name}/models/{id}" (some AccessLevel.write))
    (by decide) (by decide)).2 AccessDecision.denied
    (fun _ => HandlerOutcome.mk 200 [Collab.imageBuilder, Collab.storage, Collab.database])
    (by decide)

/-- C2: when the storage deletion fails, deleting an existing model leaves
the database record unchanged, returns PartialDeleteError, and never calls
the database; and the database deletion is performed only in runs whose
storage deletion succeeded. -/
theorem c2_storage_failure_preserves_record :
    (∀ m dbDelete e,
      deleteModel (some m) (Except.error e) dbDelete
        = (DeleteOutcome.PartialDeleteError e, some m, [Collab.storage]))
  ∧ (∀ record storageDelete dbDelete,
      Collab.database ∈ (deleteModel record storageDelete dbDelete).2.2 →
        storageDelete = Except.ok ()) := by
  constructor
  · intro m dd e
    rfl
  · intro record sd dd h
    cases record with
    | none => simp [deleteModel] at h
    | some m =>
      cases sd with
      | error e => simp [deleteModel] at h
      | ok u => cases u; rfl

/-- Witness for C2: a concrete model whose storage deletion fails keeps its
record and yields PartialDeleteError; a run that did call the database had a
successful storage deletion. -/
theorem c2_witness :
    deleteModel (some (Model.mk "id1" "proj" 0 42 "path" "tag"))
      (Except.error "storage unavailable") (Except.ok ())
      = (DeleteOutcome.PartialDeleteError "storage unavailable",
          some (Model.mk "id1" "proj" 0 42 "path" "tag"), [Collab.storage])
  ∧ (Except.ok () : Except String Unit) = Except.ok () :=
  ⟨c2_storage_failure_preserves_record.1 (Model.mk "id1" "proj" 0 42 "path" "tag")
      (Except.ok ()) "storage unavailable",
    c2_storage_failure_preserves_record.2 (some (Model.mk "id1" "proj" 0 42 "path" "tag"))
      (Except.ok ()) (Except.ok ()) (by decide)⟩

/-- C8: the content hash and the derived image tag are functions of the
bundle bytes and the project/name alone, so two uploads of byte-identical
bundles to the same repository get the same hash and the same tag. -/
theorem c8_hash_tag_deterministic (user name : String) (b1 b2 : List Nat)
    (h : b1 = b2) :
    uploadKeys user name b1 = uploadKeys user name b2 := by
  rw [h]

/-- Witness for C8: two byte-identical concrete bundles give equal upload
keys. -/
theorem c8_witness :
    uploadKeys "alice" "model" [1, 2, 3] = uploadKeys "alice" "model" [1, 2, 3] :=
  c8_hash_tag_deterministic "alice" "model" [1, 2, 3] [1, 2, 3] rfl

end Cog
